import Mathlib

/-
Verification development for the benchmark evaluation framework
(src/benchmarking/framework/evaluator.py).

The embedding models:
  * pandas cell values (`Value`), rows as association lists, and DataFrames
    as a column schema plus a list of rows (`Frame`);
  * Python truthiness and equality semantics on cells (NaN is truthy,
    NaN == x is False, None == None is True);
  * `compute_ndcg`, which sorts by the chosen score column and delegates to
    scikit-learn `ndcg_score` (default `ignore_ties=False`, i.e. the
    tie-averaged DCG of `_tie_averaged_dcg`);
  * `BenchmarkEvaluator.evaluate_query` and `evaluate_queries` (deduplication
    by query text, fixed-size batching, submission-order collection of the
    futures dictionary).

Real-valued metrics use `Real.logb`; Python floats are modelled as exact
rationals/reals (float rounding is not modelled). Cells that are absent from a
row but whose column exists in the schema are NaN in pandas; `cell` returns
`Value.na` for them. Non-numeric cells in a score or relevance column are
mapped to 0 by `valToRat`; the theorems below only evaluate frames whose
score/relevance cells are numeric, matching the data contract of the loader.
-/

namespace SageBench

/-- Scalar cell value of a pandas DataFrame: string, integer, float
(modelled as an exact rational), or NaN (also standing for a missing value). -/
inductive Value where
  | vstr (s : String)
  | vint (n : Int)
  | vnum (q : ℚ)
  | na
deriving DecidableEq, Repr

/-- A row of a DataFrame: an association list from column name to cell value. -/
abbrev Row := List (String × Value)

/-- Lookup of a field in a row (first binding wins). -/
def rget (r : Row) (c : String) : Option Value :=
  (r.find? (fun p => decide (p.1 = c))).map Prod.snd

/-- Cell access in a DataFrame context: a row that lacks a binding for a
column of the schema holds NaN there. -/
def cell (r : Row) (c : String) : Value :=
  (rget r c).getD .na

/-- Python truthiness of a cell value; note that float NaN is truthy. -/
def truthyV : Value → Bool
  | .vstr s => decide (s ≠ "")
  | .vint n => decide (n ≠ 0)
  | .vnum q => decide (q ≠ 0)
  | .na => true

/-- Truthiness of `row.get(col, 0)`: a missing key defaults to 0, which is falsy. -/
def truthyO : Option Value → Bool
  | some v => truthyV v
  | none => false

/-- Python `==` on cell values: NaN compares unequal to everything (itself
included), ints and floats compare by numeric value. -/
def pyEqV : Value → Value → Bool
  | .na, _ => false
  | _, .na => false
  | .vstr s, .vstr t => decide (s = t)
  | .vint n, .vint m => decide (n = m)
  | .vnum p, .vnum q => decide (p = q)
  | .vint n, .vnum q => decide ((n : ℚ) = q)
  | .vnum q, .vint n => decide (q = (n : ℚ))
  | _, _ => false

/-- Python `==` on the results of `row.get`: `None == None` is True,
`None == some value` is False. -/
def pyEqO : Option Value → Option Value → Bool
  | some a, some b => pyEqV a b
  | none, none => true
  | _, _ => false

/-- Numeric reading of a cell, as used when a column is summed or sorted.
Non-numeric cells map to 0 (pandas sums skip NaN so this agrees on NaN). -/
def valToRat : Value → ℚ
  | .vint n => (n : ℚ)
  | .vnum q => q
  | _ => 0

/-- Python `str()` of a cell value; a missing value (NaN) prints as "nan".
The rendering of a rational differs from CPython float repr, but no claim
depends on stringified numerics. -/
def str_of : Value → String
  | .vstr s => s
  | .vint n => toString n
  | .vnum q => toString q
  | .na => "nan"

/-- A pandas DataFrame: an ordered column schema and the list of rows. -/
structure Frame where
  cols : List String
  rows : List Row
deriving DecidableEq, Repr

/-- The empty DataFrame, `pd.DataFrame()`. -/
def emptyFrame : Frame := ⟨[], []⟩

/-- Append a column name to a schema unless already present. -/
def insertCol (acc : List String) (c : String) : List String :=
  if c ∈ acc then acc else acc ++ [c]

/-- Column schema of `pd.DataFrame(list_of_dicts)`: the union of the keys of
all records in first-appearance order. -/
def frameCols (recs : List Row) : List String :=
  recs.foldl (fun acc r => r.foldl (fun a p => insertCol a p.1) acc) []

/-- `pd.DataFrame(list_of_dicts)`, as produced by `QueryResult.to_dataframe`. -/
def frameOfRecords (recs : List Row) : Frame :=
  ⟨frameCols recs, recs⟩

/-- Overwrite or add one field of a row. -/
def setField (r : Row) (c : String) (v : Value) : Row :=
  (r.filter (fun p => decide (p.1 ≠ c))) ++ [(c, v)]

/-- Column assignment `df[c] = v` with a scalar: every row receives the value,
and the column is appended to the schema if new. -/
def setCol (f : Frame) (c : String) (v : Value) : Frame :=
  ⟨insertCol f.cols c, f.rows.map (fun r => setField r c v)⟩

/-- Row-wise `Series.get` during `iterrows()`: a column in the schema reads its
cell (NaN when the binding is absent), a column outside the schema gives None. -/
def fget (f : Frame) (r : Row) (c : String) : Option Value :=
  if c ∈ f.cols then some (cell r c) else none

/-- Concatenation `pd.concat(frames)` (and `pd.DataFrame()` for the empty
list): schemas united in order, rows concatenated. -/
def concatFrames (fs : List Frame) : Frame :=
  ⟨fs.foldl (fun acc f => f.cols.foldl insertCol acc) [], (fs.map Frame.rows).flatten⟩

/-- Discount of the 0-indexed rank `i` in DCG: `1 / log2(i + 2)`
(that is, `1 / log2(rank + 1)` for 1-indexed ranks). -/
noncomputable def disc (i : ℕ) : ℝ :=
  1 / Real.logb 2 (i + 2)

/-- Sort a list of rationals in descending order (used for the ideal ranking
of scikit-learn `ndcg_score`, which sorts the true labels ignoring ties). -/
def sortDescQ (l : List ℚ) : List ℚ :=
  l.mergeSort (fun a b => decide (b ≤ a))

/-- Positional DCG of a list of gains: `Σ_i gains_i · disc i`. -/
noncomputable def dcgAt (gains : List ℚ) : ℝ :=
  ((List.range gains.length).map (fun i => ((gains.getD i 0 : ℚ) : ℝ) * disc i)).sum

/-- Tie-averaged DCG of scikit-learn `_tie_averaged_dcg` (the default
`ignore_ties=False` path of `ndcg_score`): items are grouped by distinct score
value; the group with score `v` occupies the consecutive rank positions after
the `countP (v < ·)` strictly better items, and contributes the mean true gain
of the group times the sum of the discounts of those positions. The value
depends only on the multiset of (gain, score) pairs. -/
noncomputable def tieAveragedDCG (y_true y_score : List ℚ) : ℝ :=
  let pairs := y_true.zip y_score
  (y_score.dedup.map (fun v =>
    let cnt := y_score.countP (fun w => decide (w = v))
    let above := y_score.countP (fun w => decide (v < w))
    let relSum : ℚ := ((pairs.filter (fun p => decide (p.2 = v))).map (fun p => p.1)).sum
    ((relSum : ℝ) / (cnt : ℝ)) * ((List.range cnt).map (fun i => disc (above + i))).sum)).sum

/-- scikit-learn `ndcg_score` on one sample: tie-averaged DCG divided by the
ideal DCG (the positional DCG of the true gains sorted descending), and 0 when
the ideal DCG is 0 (no relevant item at all). -/
noncomputable def ndcg_score (y_true y_score : List ℚ) : ℝ :=
  let idcg := dcgAt (sortDescQ y_true)
  if idcg = 0 then 0 else tieAveragedDCG y_true y_score / idcg

/-- Sort the rows of a frame by a column, descending, as
`df.sort_values(sortby, ascending=False)`. The source uses the default
(unstable) quicksort kind; the embedding uses a merge sort, which is
immaterial because `ndcg_score` is invariant under reordering the pairs. -/
def sortRowsDesc (rows : List Row) (sortby : String) : List Row :=
  rows.mergeSort (fun a b => decide (valToRat (cell b sortby) ≤ valToRat (cell a sortby)))

/-- Embedding of `compute_ndcg(df, relevance_col, sortby)`: 0.0 for fewer than
two rows; otherwise sort by the score column, return 0.0 if the relevance
column is absent from the schema, else feed the relevance labels and the score
values, in sorted order, to `ndcg_score`. -/
noncomputable def compute_ndcg (f : Frame) (relevance_col : String) (sortby : String) : ℝ :=
  if f.rows.length < 2 then 0
  else
    let df_sorted := sortRowsDesc f.rows sortby
    if relevance_col ∈ f.cols then
      ndcg_score (df_sorted.map (fun r => valToRat (cell r relevance_col)))
        (df_sorted.map (fun r => valToRat (cell r sortby)))
    else 0

/-- Configuration of `BenchmarkEvaluator` and its `DatasetLoader`: the column
names for query text, query id, relevance and metadata, and the ordered
preference list of score columns for NDCG. -/
structure EvalConfig where
  query_col : String
  query_id_col : String
  relevance_col : String
  metadata_cols : List String
  score_columns : List String
deriving DecidableEq, Repr

/-- Default `score_columns` of `BenchmarkEvaluator.__init__`. -/
def defaultScoreColumns : List String :=
  ["rerank_score", "clip_score", "score", "distance"]

/-- One per-query statistics record, the dictionary built by
`evaluate_query`. The dynamic key `secondary_NDCG` is optional; metadata
columns are kept as a key-value list. -/
structure QueryStats where
  query_id : Value
  query : String
  total_results : ℕ
  correctly_returned : ℕ
  incorrectly_returned : ℕ
  relevant_results : ℕ
  non_relevant_results : ℕ
  accuracy : ℚ
  precision : ℚ
  «recall» : ℚ
  NDCG : ℝ
  secondary_NDCG : Option ℝ
  meta : List (String × Value)

/-- Query text of a dataset row: `str(query_row[query_col])`. -/
def queryText (cfg : EvalConfig) (query_row : Row) : String :=
  str_of (cell query_row cfg.query_col)

/-- Construction of `results_df` in `evaluate_query`: run the search (an
exception yields an empty frame, mirroring the except branch), then assign the
two tracking columns `queried_on_<query_id_col>` and `queried_on_query`. -/
def annotated_results (cfg : EvalConfig) (search : String → Except String (List Row))
    (query_row : Row) : Frame :=
  let query := queryText cfg query_row
  let query_id := cell query_row cfg.query_id_col
  let base : Frame :=
    match search query with
    | .ok recs => frameOfRecords recs
    | .error _ => emptyFrame
  setCol (setCol base ("queried_on_" ++ cfg.query_id_col) query_id) "queried_on_query" (.vstr query)

/-- Metadata fields attached to a stats record: `query_row.get(col, "")`. -/
def metaFields (cfg : EvalConfig) (query_row : Row) : List (String × Value) :=
  cfg.metadata_cols.map (fun c => (c, (rget query_row c).getD (.vstr "")))

/-- Embedding of `BenchmarkEvaluator.evaluate_query`. The searcher is a
function of the query text returning either result records or an error; the
error branch is caught and treated as an empty result frame. Returns the
annotated result frame and the per-query statistics record. -/
noncomputable def evaluate_query (cfg : EvalConfig)
    (search : String → Except String (List Row))
    (query_row : Row) (dataset : Frame) : Frame × QueryStats :=
  let query := queryText cfg query_row
  let query_id := cell query_row cfg.query_id_col
  let results_df := annotated_results cfg search query_row
  if results_df.rows.isEmpty then
    (results_df,
      { query_id := query_id
        query := query
        total_results := 0
        correctly_returned := 0
        incorrectly_returned := 0
        relevant_results := 0
        non_relevant_results := 0
        accuracy := 0
        precision := 0
        «recall» := 0
        NDCG := 0
        secondary_NDCG := none
        meta := metaFields cfg query_row })
  else
    let total_results := results_df.rows.length
    let correct_retrieval := results_df.rows.countP (fun r =>
      pyEqO (fget results_df r ("queried_on_" ++ cfg.query_id_col)) (fget results_df r cfg.query_id_col))
    let relevant_results := results_df.rows.countP (fun r =>
      truthyO (fget results_df r cfg.relevance_col))
    let incorrect_retrieval := total_results - correct_retrieval
    let non_relevant_results := total_results - relevant_results
    let relevant_in_dataset : ℚ :=
      ((dataset.rows.filter (fun r => pyEqV (cell r cfg.query_id_col) query_id)).map
        (fun r => valToRat (cell r cfg.relevance_col))).sum
    let ndcg : ℝ :=
      match cfg.score_columns.find? (fun c => decide (c ∈ results_df.cols)) with
      | some c => compute_ndcg results_df cfg.relevance_col c
      | none => 0
    let secondary_ndcg : ℝ :=
      match cfg.score_columns.find? (fun c =>
          decide (c ∈ results_df.cols) && decide (some c ≠ cfg.score_columns.head?)) with
      | some c => compute_ndcg results_df cfg.relevance_col c
      | none => 0
    (results_df,
      { query_id := query_id
        query := query
        total_results := total_results
        correctly_returned := correct_retrieval
        incorrectly_returned := incorrect_retrieval
        relevant_results := relevant_results
        non_relevant_results := non_relevant_results
        accuracy := if total_results ≠ 0 then (correct_retrieval : ℚ) / (total_results : ℚ) else 0
        precision := if total_results ≠ 0 then (relevant_results : ℚ) / (total_results : ℚ) else 0
        «recall» := if relevant_in_dataset ≠ 0 then (relevant_results : ℚ) / relevant_in_dataset else 0
        NDCG := ndcg
        secondary_NDCG := if 0 < secondary_ndcg then some secondary_ndcg else none
        meta := metaFields cfg query_row })

/-- Embedding of the module-level `batched`: successive chunks of the given
size. With batch size 0 the Python generator yields nothing at all (the first
`islice` is empty and the walrus loop exits), which the model reproduces. -/
def batched {α : Type} (batch_size : ℕ) (l : List α) : List (List α) :=
  if h : l.isEmpty ∨ batch_size = 0 then []
  else l.take batch_size :: batched batch_size (l.drop batch_size)
termination_by l.length
decreasing_by
  push_neg at h
  simp only [List.length_drop]
  have h1 : 0 < l.length := by
    cases l with
    | nil => simp at h
    | cons a t => simp
  have h2 : 0 < batch_size := Nat.pos_of_ne_zero h.2
  omega

/-- Recursion of `drop_duplicates(subset=[...])` with `keep` at its default:
keep a row when its key value has not been seen before. pandas treats NaN keys
as duplicates of each other, as does `Value.na` here. -/
def dedupRows (key : Row → Value) : List Value → List Row → List Row
  | _, [] => []
  | seen, r :: rs =>
    if key r ∈ seen then dedupRows key seen rs
    else r :: dedupRows key (key r :: seen) rs

/-- pandas `drop_duplicates` on one key column, keeping first occurrences. -/
def drop_duplicates (key : Row → Value) (l : List Row) : List Row :=
  dedupRows key [] l

/-- Embedding of `BenchmarkEvaluator.evaluate_queries`. `drop_duplicates`
raises `KeyError` when the subset column is absent from the schema, which is
before any query is dispatched; that is the only uncaught error path. The
thread pool is modelled sequentially: the source iterates the futures
dictionary (submission order) and blocks on `future.result()`, so each
batch contributes its results in submission order. -/
noncomputable def evaluate_queries (cfg : EvalConfig)
    (search : String → Except String (List Row))
    (batch_size : ℕ) (dataset : Frame) : Except String (Frame × List QueryStats) :=
  if cfg.query_col ∈ dataset.cols then
    let unique_queries := drop_duplicates (fun r => cell r cfg.query_col) dataset.rows
    let collected :=
      ((batched batch_size unique_queries).map
        (fun batch => batch.map (fun r => evaluate_query cfg search r dataset))).flatten
    .ok (concatFrames (collected.map Prod.fst), collected.map Prod.snd)
  else
    .error "KeyError"

end SageBench

namespace SageBench

/-- Modelled from the spec (section 4.3), for comparison with the source: NDCG
computed after a stable descending sort by score in which tied items keep
their original order, with positional DCG over the sorted order, ideal DCG
from the labels sorted descending, and 0 when the ideal DCG is 0 or when
fewer than two items are given. Input: (relevance, score) pairs in
backend-returned order. -/
noncomputable def specStableNDCG (pairs : List (ℚ × ℚ)) : ℝ :=
  if pairs.length < 2 then 0
  else
    let ranked := pairs.mergeSort (fun a b => decide (b.2 ≤ a.2))
    let idcg := dcgAt (sortDescQ (pairs.map (fun p => p.1)))
    if idcg = 0 then 0 else dcgAt (ranked.map (fun p => p.1)) / idcg

/-- Tie-averaged DCG stated item-wise over the raw (relevance, score) pairs:
each item contributes its relevance times the mean discount of the block of
rank positions occupied by the items tied with it. Order-independent by
construction. -/
noncomputable def specTieAvgDCG (pairs : List (ℚ × ℚ)) : ℝ :=
  (pairs.map (fun p =>
    let cnt := pairs.countP (fun q => decide (q.2 = p.2))
    let above := pairs.countP (fun q => decide (p.2 < q.2))
    (p.1 : ℝ) * (((List.range cnt).map (fun i => disc (above + i))).sum / (cnt : ℝ)))).sum

/-- Tie-averaged NDCG over raw (relevance, score) pairs: `specTieAvgDCG`
normalized by the ideal positional DCG of the relevance labels sorted
descending, and 0 when that ideal DCG is 0. -/
noncomputable def specTieAvgNDCG (pairs : List (ℚ × ℚ)) : ℝ :=
  let idcg := dcgAt (sortDescQ (pairs.map (fun p => p.1)))
  if idcg = 0 then 0 else specTieAvgDCG pairs / idcg

/-- Distinct values of a list in first-occurrence order. -/
def firstOccur : List Value → List Value
  | [] => []
  | v :: vs => v :: firstOccur (vs.filter (fun w => decide (w ≠ v)))
termination_by l => l.length
decreasing_by
  have := List.length_filter_le (fun w => decide (w ≠ v)) vs
  simp only [List.length_cons]
  omega

/-- Zero-metric statistics record returned for a query with an empty result
frame (backend failure or genuinely no results). -/
def zeroStats (cfg : EvalConfig) (query_row : Row) : QueryStats :=
  { query_id := cell query_row cfg.query_id_col
    query := queryText cfg query_row
    total_results := 0
    correctly_returned := 0
    incorrectly_returned := 0
    relevant_results := 0
    non_relevant_results := 0
    accuracy := 0
    precision := 0
    «recall» := 0
    NDCG := 0
    secondary_NDCG := none
    meta := metaFields cfg query_row }

theorem evaluate_query_empty (cfg : EvalConfig) (search : String → Except String (List Row))
    (query_row : Row) (dataset : Frame)
    (h : (annotated_results cfg search query_row).rows.isEmpty) :
    evaluate_query cfg search query_row dataset =
      (annotated_results cfg search query_row, zeroStats cfg query_row) := by
  simp [evaluate_query, h, zeroStats]

theorem annotated_rows_of_error (cfg : EvalConfig)
    (search : String → Except String (List Row)) (query_row : Row) (e : String)
    (h : search (queryText cfg query_row) = .error e) :
    (annotated_results cfg search query_row).rows = [] := by
  simp [annotated_results, h, emptyFrame, setCol]

end SageBench

namespace SageBench

/-- C1: if the search call for a query fails with any error, `evaluate_query`
still returns a QueryStats row for that query with `total_results = 0` and
accuracy, precision, recall and NDCG all 0.0; the error is absorbed inside the
evaluator (the function is total and takes the caught-exception branch). -/
theorem C1_backend_error_zero_stats (cfg : EvalConfig)
    (search : String → Except String (List Row)) (query_row : Row) (dataset : Frame)
    (e : String) (h : search (queryText cfg query_row) = .error e) :
    (evaluate_query cfg search query_row dataset).2.total_results = 0 ∧
    (evaluate_query cfg search query_row dataset).2.accuracy = 0 ∧
    (evaluate_query cfg search query_row dataset).2.precision = 0 ∧
    (evaluate_query cfg search query_row dataset).2.«recall» = 0 ∧
    (evaluate_query cfg search query_row dataset).2.NDCG = 0 := by
  have hrows := annotated_rows_of_error cfg search query_row e h
  have hemp : (annotated_results cfg search query_row).rows.isEmpty := by
    simp [hrows]
  rw [evaluate_query_empty cfg search query_row dataset hemp]
  simp [zeroStats]

/-- Closed witness for C1 at a concrete failing searcher. -/
theorem C1_backend_error_zero_stats_witness :
    ((fun _ : String => (.error "BackendError" : Except String (List Row)))
        (queryText ⟨"query", "query_id", "relevant", [], defaultScoreColumns⟩
          [("query", .vstr "bird"), ("query_id", .vint 1)]) = .error "BackendError") ∧
    (evaluate_query ⟨"query", "query_id", "relevant", [], defaultScoreColumns⟩
        (fun _ => .error "BackendError")
        [("query", .vstr "bird"), ("query_id", .vint 1)] emptyFrame).2.total_results = 0 ∧
    (evaluate_query ⟨"query", "query_id", "relevant", [], defaultScoreColumns⟩
        (fun _ => .error "BackendError")
        [("query", .vstr "bird"), ("query_id", .vint 1)] emptyFrame).2.accuracy = 0 ∧
    (evaluate_query ⟨"query", "query_id", "relevant", [], defaultScoreColumns⟩
        (fun _ => .error "BackendError")
        [("query", .vstr "bird"), ("query_id", .vint 1)] emptyFrame).2.precision = 0 ∧
    (evaluate_query ⟨"query", "query_id", "relevant", [], defaultScoreColumns⟩
        (fun _ => .error "BackendError")
        [("query", .vstr "bird"), ("query_id", .vint 1)] emptyFrame).2.«recall» = 0 ∧
    (evaluate_query ⟨"query", "query_id", "relevant", [], defaultScoreColumns⟩
        (fun _ => .error "BackendError")
        [("query", .vstr "bird"), ("query_id", .vint 1)] emptyFrame).2.NDCG = 0 :=
  ⟨rfl, C1_backend_error_zero_stats _ _ _ _ "BackendError" rfl⟩

/-- C3: every QueryStats row produced by `evaluate_query` satisfies
`correctly_returned + incorrectly_returned = total_results` and
`relevant_results + non_relevant_results = total_results`. -/
theorem C3_count_invariants (cfg : EvalConfig)
    (search : String → Except String (List Row)) (query_row : Row) (dataset : Frame) :
    (evaluate_query cfg search query_row dataset).2.correctly_returned +
      (evaluate_query cfg search query_row dataset).2.incorrectly_returned =
      (evaluate_query cfg search query_row dataset).2.total_results ∧
    (evaluate_query cfg search query_row dataset).2.relevant_results +
      (evaluate_query cfg search query_row dataset).2.non_relevant_results =
      (evaluate_query cfg search query_row dataset).2.total_results := by
  by_cases h : (annotated_results cfg search query_row).rows.isEmpty
  · rw [evaluate_query_empty cfg search query_row dataset h]
    simp [zeroStats]
  · have h1 := List.countP_le_length
      (fun r => pyEqO (fget (annotated_results cfg search query_row) r
        ("queried_on_" ++ cfg.query_id_col))
        (fget (annotated_results cfg search query_row) r cfg.query_id_col))
      (l := (annotated_results cfg search query_row).rows)
    have h2 := List.countP_le_length
      (fun r => truthyO (fget (annotated_results cfg search query_row) r cfg.relevance_col))
      (l := (annotated_results cfg search query_row).rows)
    simp only [evaluate_query, h, Bool.false_eq_true, if_false]
    refine ⟨?_, ?_⟩ <;> omega

end SageBench

namespace SageBench

/-- First-occurrence deduplication on key values, with an accumulator of seen
values; `dedupRows` projected through the key behaves like this. -/
def dedupVals (seen : List Value) : List Value → List Value
  | [] => []
  | v :: vs => if v ∈ seen then dedupVals seen vs else v :: dedupVals (v :: seen) vs

theorem batched_flatten {α : Type} {b : ℕ} (hb : 1 ≤ b) (l : List α) :
    (batched b l).flatten = l := by
  suffices h : ∀ n (l : List α), l.length ≤ n → (batched b l).flatten = l from
    h l.length l le_rfl
  intro n
  induction n with
  | zero =>
    intro l hl
    have hnil : l = [] := List.eq_nil_of_length_eq_zero (Nat.le_zero.mp hl)
    subst hnil
    unfold batched
    simp
  | succ n ih =>
    intro l hl
    unfold batched
    split
    · rename_i hc
      rcases hc with hc | hc
      · simp [List.isEmpty_iff.mp hc]
      · omega
    · rename_i hc
      push_neg at hc
      have hne : l ≠ [] := by
        intro hle
        rw [hle] at hc
        simp at hc
      have h0 : 0 < l.length := List.length_pos.mpr hne
      have hlen : (l.drop b).length ≤ n := by
        simp only [List.length_drop]
        omega
      simp only [List.flatten_cons, ih _ hlen]
      exact List.take_append_drop b l

theorem dedupRows_map_key (key : Row → Value) (seen : List Value) (l : List Row) :
    (dedupRows key seen l).map key = dedupVals seen (l.map key) := by
  induction l generalizing seen with
  | nil => simp [dedupRows, dedupVals]
  | cons r rs ih =>
    simp only [dedupRows, List.map_cons, dedupVals]
    by_cases h : key r ∈ seen
    · simp [h, ih]
    · simp [h, ih]

theorem firstOccur_cons (v : Value) (vs : List Value) :
    firstOccur (v :: vs) = v :: firstOccur (vs.filter (fun w => decide (w ≠ v))) := by
  rw [firstOccur.eq_def]

theorem dedupVals_eq_firstOccur (seen : List Value) (vs : List Value) :
    dedupVals seen vs = firstOccur (vs.filter (fun v => decide (v ∉ seen))) := by
  induction vs generalizing seen with
  | nil => simp [dedupVals, firstOccur]
  | cons v tl ih =>
    by_cases h : v ∈ seen
    · simp only [dedupVals, if_pos h, List.filter_cons]
      simp [h, ih]
    · rw [dedupVals, if_neg h, List.filter_cons, if_pos (decide_eq_true h),
        firstOccur_cons, ih (v :: seen)]
      congr 2
      rw [List.filter_filter]
      apply List.filter_congr
      intro w _
      by_cases hw : w ∈ seen <;> by_cases hv : w = v <;> simp [hw, hv]

theorem dedupVals_length (seen : List Value) (vs : List Value) :
    (dedupVals seen vs).length = (vs.filter (fun v => decide (v ∉ seen))).toFinset.card := by
  induction vs generalizing seen with
  | nil => simp [dedupVals]
  | cons v tl ih =>
    by_cases h : v ∈ seen
    · simp only [dedupVals, if_pos h, List.filter_cons]
      simp [h, ih]
    · rw [dedupVals, if_neg h, List.filter_cons, if_pos (decide_eq_true h)]
      simp only [List.length_cons, ih (v :: seen), List.toFinset_cons]
      have hfil : tl.filter (fun w => decide (w ∉ v :: seen)) =
          (tl.filter (fun w => decide (w ∉ seen))).filter (fun w => decide (w ≠ v)) := by
        rw [List.filter_filter]
        apply List.filter_congr
        intro w _
        by_cases hw : w ∈ seen <;> by_cases hv : w = v <;> simp [hw, hv]
      rw [hfil, List.toFinset_filter]
      have herase : ((tl.filter (fun w => decide (w ∉ seen))).toFinset.filter
            (fun w => decide (w ≠ v) = true)) =
          (tl.filter (fun w => decide (w ∉ seen))).toFinset.erase v := by
        simp only [decide_eq_true_eq]
        exact Finset.filter_ne' _ v
      rw [herase]
      set S := (tl.filter (fun w => decide (w ∉ seen))).toFinset with hS
      rw [← Finset.insert_erase (Finset.mem_insert_self v S),
        Finset.card_insert_of_not_mem (Finset.not_mem_erase v _),
        Finset.erase_insert_eq_erase]

theorem evaluate_query_query_text (cfg : EvalConfig)
    (search : String → Except String (List Row)) (query_row : Row) (dataset : Frame) :
    (evaluate_query cfg search query_row dataset).2.query = queryText cfg query_row := by
  by_cases h : (annotated_results cfg search query_row).rows.isEmpty
  · rw [evaluate_query_empty cfg search query_row dataset h]
    simp [zeroStats]
  · simp only [evaluate_query, h, Bool.false_eq_true, if_false]

theorem evaluate_queries_ok (cfg : EvalConfig) (search : String → Except String (List Row))
    {b : ℕ} (hb : 1 ≤ b) {dataset : Frame} (hcol : cfg.query_col ∈ dataset.cols) :
    evaluate_queries cfg search b dataset =
      .ok (concatFrames ((drop_duplicates (fun r => cell r cfg.query_col) dataset.rows).map
              (fun r => (evaluate_query cfg search r dataset).1)),
           (drop_duplicates (fun r => cell r cfg.query_col) dataset.rows).map
              (fun r => (evaluate_query cfg search r dataset).2)) := by
  simp only [evaluate_queries, hcol, if_pos]
  have key : ∀ (u : List Row) (f : Row → Frame × QueryStats),
      ((batched b u).map (fun batch => batch.map f)).flatten = u.map f := by
    intro u f
    rw [← List.map_flatten, batched_flatten hb]
  rw [key]
  simp only [List.map_map]
  rfl

end SageBench

namespace SageBench

theorem concatFrames_rows (fs : List Frame) :
    (concatFrames fs).rows = (fs.map Frame.rows).flatten := rfl

/-- Concrete configuration used by several closed witnesses. -/
def wCfg : EvalConfig := ⟨"q", "id", "rel", [], defaultScoreColumns⟩

/-- Searcher returning no results, used by closed witnesses. -/
def wSearchEmpty : String → Except String (List Row) := fun _ => .ok []

/-- Concrete two-query dataset used by closed witnesses. -/
def wFrame2 : Frame :=
  ⟨["q", "id"], [[("q", .vstr "cat"), ("id", .vint 1)], [("q", .vstr "dog"), ("id", .vint 2)]]⟩

/-- Concrete dataset with three rows and two distinct query texts. -/
def wFrame3 : Frame :=
  ⟨["q", "id"],
   [[("q", .vstr "cat"), ("id", .vint 1)],
    [("q", .vstr "dog"), ("id", .vint 2)],
    [("q", .vstr "cat"), ("id", .vint 3)]]⟩

/-- C2: for every dataset whose query-text column exists and every positive
batch size, `evaluate_queries` succeeds and its stats output has exactly one
QueryStats row per distinct query-text value in the dataset (queries with zero
search results included, since `evaluate_query` always returns a row). -/
theorem C2_stats_length_unique_queries (cfg : EvalConfig)
    (search : String → Except String (List Row)) {b : ℕ} (hb : 1 ≤ b)
    {dataset : Frame} (hcol : cfg.query_col ∈ dataset.cols) :
    ∃ pr : Frame × List QueryStats,
      evaluate_queries cfg search b dataset = .ok pr ∧
      pr.2.length = (dataset.rows.map (fun r => cell r cfg.query_col)).toFinset.card := by
  refine ⟨_, evaluate_queries_ok cfg search hb hcol, ?_⟩
  simp only [List.length_map]
  have h1 : (drop_duplicates (fun r => cell r cfg.query_col) dataset.rows).length
      = ((drop_duplicates (fun r => cell r cfg.query_col) dataset.rows).map
          (fun r => cell r cfg.query_col)).length := by
    simp
  rw [h1, drop_duplicates, dedupRows_map_key, dedupVals_length]
  have h2 : (List.filter (fun v => decide (v ∉ ([] : List Value)))
      (dataset.rows.map (fun r => cell r cfg.query_col))) =
      dataset.rows.map (fun r => cell r cfg.query_col) := by
    apply List.filter_eq_self.mpr
    intro v _
    simp
  rw [h2]

/-- Closed witness for C2 on a dataset with three rows and two distinct
query texts. -/
theorem C2_stats_length_unique_queries_witness :
    (1 ≤ 100) ∧ (wCfg.query_col ∈ wFrame3.cols) ∧
    ∃ pr : Frame × List QueryStats,
      evaluate_queries wCfg wSearchEmpty 100 wFrame3 = .ok pr ∧
      pr.2.length = (wFrame3.rows.map (fun r => cell r wCfg.query_col)).toFinset.card :=
  ⟨by decide, by decide, C2_stats_length_unique_queries wCfg wSearchEmpty (by decide) (by decide)⟩

/-- C9: for every dataset whose query column exists and every batch size at
least 1, `evaluate_queries` returns exactly the concatenation of the per-query
frames and the list of per-query stats obtained by running `evaluate_query`
independently on each unique query in order: batching (and, in the model,
scheduling, since results are collected from the futures dictionary in
submission order) has no semantic effect on the output. -/
theorem C9_dispatch_refinement (cfg : EvalConfig)
    (search : String → Except String (List Row)) {b : ℕ} (hb : 1 ≤ b)
    {dataset : Frame} (hcol : cfg.query_col ∈ dataset.cols) :
    evaluate_queries cfg search b dataset =
      .ok (concatFrames ((drop_duplicates (fun r => cell r cfg.query_col) dataset.rows).map
              (fun r => (evaluate_query cfg search r dataset).1)),
           (drop_duplicates (fun r => cell r cfg.query_col) dataset.rows).map
              (fun r => (evaluate_query cfg search r dataset).2)) :=
  evaluate_queries_ok cfg search hb hcol

/-- Closed witness for C9 at batch size 1 (any positive size yields the same
unbatched right-hand side). -/
theorem C9_dispatch_refinement_witness :
    (1 ≤ 1) ∧ (wCfg.query_col ∈ wFrame2.cols) ∧
    evaluate_queries wCfg wSearchEmpty 1 wFrame2 =
      .ok (concatFrames ((drop_duplicates (fun r => cell r wCfg.query_col) wFrame2.rows).map
              (fun r => (evaluate_query wCfg wSearchEmpty r wFrame2).1)),
           (drop_duplicates (fun r => cell r wCfg.query_col) wFrame2.rows).map
              (fun r => (evaluate_query wCfg wSearchEmpty r wFrame2).2)) :=
  ⟨by decide, by decide, C9_dispatch_refinement wCfg wSearchEmpty (by decide) (by decide)⟩

end SageBench

namespace SageBench

/-- C10: since the source iterates the futures dictionary in submission order,
the stats rows of `evaluate_queries` appear exactly in first-occurrence order
of the distinct query texts of the input dataset, and the combined result
table is the concatenation of the per-query result blocks in that same
order. -/
theorem C10_stats_first_occurrence_order (cfg : EvalConfig)
    (search : String → Except String (List Row)) {b : ℕ} (hb : 1 ≤ b)
    {dataset : Frame} (hcol : cfg.query_col ∈ dataset.cols) :
    ∃ pr : Frame × List QueryStats,
      evaluate_queries cfg search b dataset = .ok pr ∧
      pr.2.map (fun s => s.query) =
        (firstOccur (dataset.rows.map (fun r => cell r cfg.query_col))).map str_of ∧
      pr.1.rows = ((drop_duplicates (fun r => cell r cfg.query_col) dataset.rows).map
          (fun r => (evaluate_query cfg search r dataset).1.rows)).flatten := by
  refine ⟨_, evaluate_queries_ok cfg search hb hcol, ?_, ?_⟩
  · rw [List.map_map]
    have hq : ((fun s => QueryStats.query s) ∘ (fun r => (evaluate_query cfg search r dataset).2))
        = fun r => str_of (cell r cfg.query_col) := by
      funext r
      exact evaluate_query_query_text cfg search r dataset
    rw [hq]
    have h2 : (drop_duplicates (fun r => cell r cfg.query_col) dataset.rows).map
          (fun r => str_of (cell r cfg.query_col))
        = ((drop_duplicates (fun r => cell r cfg.query_col) dataset.rows).map
            (fun r => cell r cfg.query_col)).map str_of := by
      rw [List.map_map]
      rfl
    rw [h2, drop_duplicates, dedupRows_map_key, dedupVals_eq_firstOccur]
    congr 2
    apply List.filter_eq_self.mpr
    intro v _
    simp
  · rw [concatFrames_rows, List.map_map]
    rfl

/-- Closed witness for C10 on the three-row dataset with two distinct texts. -/
theorem C10_stats_first_occurrence_order_witness :
    (1 ≤ 100) ∧ (wCfg.query_col ∈ wFrame3.cols) ∧
    ∃ pr : Frame × List QueryStats,
      evaluate_queries wCfg wSearchEmpty 100 wFrame3 = .ok pr ∧
      pr.2.map (fun s => s.query) =
        (firstOccur (wFrame3.rows.map (fun r => cell r wCfg.query_col))).map str_of ∧
      pr.1.rows = ((drop_duplicates (fun r => cell r wCfg.query_col) wFrame3.rows).map
          (fun r => (evaluate_query wCfg wSearchEmpty r wFrame3).1.rows)).flatten :=
  ⟨by decide, by decide,
    C10_stats_first_occurrence_order wCfg wSearchEmpty (by decide) (by decide)⟩

/-- C8 (amended): only the complete absence of the configured query-text
column from the dataset schema aborts the run, with the KeyError that
`drop_duplicates` raises, before any query is dispatched (the outcome is the
same for every searcher and batch size). -/
theorem C8_missing_query_column_keyerror (cfg : EvalConfig)
    (search : String → Except String (List Row)) (b : ℕ) (dataset : Frame)
    (h : cfg.query_col ∉ dataset.cols) :
    evaluate_queries cfg search b dataset = .error "KeyError" := by
  simp [evaluate_queries, h]

/-- Closed witness for the amended C8 on a dataset without the query column. -/
theorem C8_missing_query_column_keyerror_witness :
    (wCfg.query_col ∉ (Frame.mk ["id"] [[("id", Value.vint 1)]]).cols) ∧
    evaluate_queries wCfg wSearchEmpty 100 (Frame.mk ["id"] [[("id", Value.vint 1)]]) =
      .error "KeyError" :=
  ⟨by decide, C8_missing_query_column_keyerror wCfg wSearchEmpty 100 _ (by decide)⟩

/-- C8 counterexample: a dataset row lacking the query-text field (its cell is
missing/NaN while the column itself exists) does not abort the run and is not
skipped: the run succeeds and that row is evaluated as query text "nan". -/
theorem C8_missing_query_field_evaluated :
    (∃ r ∈ (Frame.mk ["q", "id", "rel"] [[("id", Value.vint 1), ("rel", Value.vint 1)]]).rows,
        rget r "q" = none) ∧
    ∃ pr : Frame × List QueryStats,
      evaluate_queries wCfg wSearchEmpty 100
          (Frame.mk ["q", "id", "rel"] [[("id", Value.vint 1), ("rel", Value.vint 1)]]) = .ok pr ∧
      pr.2.map (fun s => s.query) = ["nan"] := by
  refine ⟨by decide, _, evaluate_queries_ok wCfg wSearchEmpty (by decide) (by decide), ?_⟩
  rw [List.map_map]
  have hq : ((fun s => QueryStats.query s) ∘
      (fun r => (evaluate_query wCfg wSearchEmpty r (Frame.mk ["q", "id", "rel"]
        [[("id", Value.vint 1), ("rel", Value.vint 1)]])).2)) = fun r => queryText wCfg r := by
    funext r
    exact evaluate_query_query_text _ _ _ _
  rw [hq]
  decide

end SageBench

namespace SageBench

/-- Count of relevant rows for a query id across the entire dataset: the sum
of the relevance labels of all dataset rows whose query-id cell equals the
given id under Python/pandas equality. -/
def relevantInDataset (cfg : EvalConfig) (dataset : Frame) (query_id : Value) : ℚ :=
  ((dataset.rows.filter (fun r => pyEqV (cell r cfg.query_id_col) query_id)).map
    (fun r => valToRat (cell r cfg.relevance_col))).sum

/-- Searcher returning exactly one result record, used by closed witnesses. -/
def wSearchOne : String → Except String (List Row) :=
  fun _ => .ok [[("id", Value.vint 1), ("rel", Value.vint 1)]]

/-- C4: for a query evaluated with a non-empty result set, recall equals
`relevant_results` divided by the sum of relevance labels over all dataset
rows sharing the query id, and recall is 0 whenever that sum is 0 — no
division by zero, whatever the returned result set. -/
theorem C4_recall_denominator (cfg : EvalConfig)
    (search : String → Except String (List Row)) (query_row : Row) (dataset : Frame)
    (h : (annotated_results cfg search query_row).rows ≠ []) :
    (relevantInDataset cfg dataset (cell query_row cfg.query_id_col) = 0 →
      (evaluate_query cfg search query_row dataset).2.«recall» = 0) ∧
    (relevantInDataset cfg dataset (cell query_row cfg.query_id_col) ≠ 0 →
      (evaluate_query cfg search query_row dataset).2.«recall» =
        ((evaluate_query cfg search query_row dataset).2.relevant_results : ℚ) /
          relevantInDataset cfg dataset (cell query_row cfg.query_id_col)) := by
  have hemp : ¬ ((annotated_results cfg search query_row).rows.isEmpty = true) := by
    simp [List.isEmpty_iff, h]
  constructor
  · intro hS
    simp only [evaluate_query, hemp, Bool.false_eq_true, if_false]
    simp only [relevantInDataset] at hS
    simp [hS]
  · intro hS
    simp only [evaluate_query, hemp, Bool.false_eq_true, if_false]
    simp only [relevantInDataset] at hS
    simp [hS, relevantInDataset]

/-- Closed witness for C4 with one returned result. -/
theorem C4_recall_denominator_witness :
    ((annotated_results wCfg wSearchOne (wFrame3.rows.headD [])).rows ≠ []) ∧
    ((relevantInDataset wCfg wFrame3 (cell (wFrame3.rows.headD []) wCfg.query_id_col) = 0 →
      (evaluate_query wCfg wSearchOne (wFrame3.rows.headD []) wFrame3).2.«recall» = 0) ∧
    (relevantInDataset wCfg wFrame3 (cell (wFrame3.rows.headD []) wCfg.query_id_col) ≠ 0 →
      (evaluate_query wCfg wSearchOne (wFrame3.rows.headD []) wFrame3).2.«recall» =
        ((evaluate_query wCfg wSearchOne (wFrame3.rows.headD []) wFrame3).2.relevant_results : ℚ) /
          relevantInDataset wCfg wFrame3 (cell (wFrame3.rows.headD []) wCfg.query_id_col))) :=
  ⟨by decide, C4_recall_denominator wCfg wSearchOne (wFrame3.rows.headD []) wFrame3 (by decide)⟩

/-- C5: the reported primary NDCG of a QueryStats row is 0 whenever the result
set has fewer than 2 rows (whatever the relevance labels), or none of the
candidate score columns occurs in the result schema. -/
theorem C5_ndcg_zero_degenerate (cfg : EvalConfig)
    (search : String → Except String (List Row)) (query_row : Row) (dataset : Frame)
    (h : (annotated_results cfg search query_row).rows.length < 2 ∨
      ∀ c ∈ cfg.score_columns, c ∉ (annotated_results cfg search query_row).cols) :
    (evaluate_query cfg search query_row dataset).2.NDCG = 0 := by
  by_cases hemp : (annotated_results cfg search query_row).rows.isEmpty
  · rw [evaluate_query_empty cfg search query_row dataset hemp]
    simp [zeroStats]
  · simp only [evaluate_query, hemp, Bool.false_eq_true, if_false]
    rcases h with h | h
    · cases hf : cfg.score_columns.find?
          (fun c => decide (c ∈ (annotated_results cfg search query_row).cols)) with
      | none => simp [hf]
      | some c => simp [hf, compute_ndcg, h]
    · have hf : cfg.score_columns.find?
          (fun c => decide (c ∈ (annotated_results cfg search query_row).cols)) = none := by
        apply List.find?_eq_none.mpr
        intro c hc
        simpa using h c hc
      simp [hf]

/-- Closed witness for C5 with a single returned result (length 1). -/
theorem C5_ndcg_zero_degenerate_witness :
    ((annotated_results wCfg wSearchOne (wFrame3.rows.headD [])).rows.length < 2 ∨
      ∀ c ∈ wCfg.score_columns, c ∉ (annotated_results wCfg wSearchOne (wFrame3.rows.headD [])).cols) ∧
    (evaluate_query wCfg wSearchOne (wFrame3.rows.headD []) wFrame3).2.NDCG = 0 :=
  ⟨Or.inl (by decide),
    C5_ndcg_zero_degenerate wCfg wSearchOne (wFrame3.rows.headD []) wFrame3 (Or.inl (by decide))⟩

end SageBench

namespace SageBench

theorem sortDescQ_sorted (l : List ℚ) : (sortDescQ l).Sorted (· ≥ ·) := by
  have hs : (l.mergeSort (fun a b => decide (b ≤ a))).Pairwise
      (fun a b : ℚ => decide (b ≤ a) = true) :=
    List.sorted_mergeSort
      (by intro a b c hab hbc; simp_all; exact le_trans hbc hab)
      (by intro a b; simp [le_total]) l
  exact List.Pairwise.imp (by intro a b hab; simpa using of_decide_eq_true hab) hs

theorem sortDescQ_perm (l : List ℚ) : (sortDescQ l).Perm l :=
  List.mergeSort_perm l _

theorem sortDescQ_congr_perm {l l' : List ℚ} (h : l.Perm l') : sortDescQ l = sortDescQ l' := by
  have hp : (sortDescQ l).Perm (sortDescQ l') :=
    ((sortDescQ_perm l).trans h).trans (sortDescQ_perm l').symm
  exact hp.eq_of_sorted (fun a b _ _ hab hba => le_antisymm hba hab)
    (sortDescQ_sorted l) (sortDescQ_sorted l')

theorem sum_partition_by {α β : Type} [DecidableEq β] (key : α → β) (F : α → ℝ) :
    ∀ (vals : List β) (l : List α), vals.Nodup → (∀ a ∈ l, key a ∈ vals) →
      (vals.map (fun v => ((l.filter (fun a => decide (key a = v))).map F).sum)).sum
        = (l.map F).sum := by
  intro vals
  induction vals with
  | nil =>
    intro l _ hcov
    have hl : l = [] := by
      cases l with
      | nil => rfl
      | cons a t => exact absurd (hcov a (by simp)) (by simp)
    subst hl
    simp
  | cons v vs ih =>
    intro l hnd hcov
    have hvvs : v ∉ vs := (List.nodup_cons.mp hnd).1
    have hsplit : (l.map F).sum =
        ((l.filter (fun a => decide (key a = v))).map F).sum
          + ((l.filter (fun a => !decide (key a = v))).map F).sum := by
      have hp : ((l.filter (fun a => decide (key a = v)) ++
          l.filter (fun a => !decide (key a = v))).map F).Perm (l.map F) :=
        (l.filter_append_perm (fun a => decide (key a = v))).map F
      rw [← hp.sum_eq, List.map_append, List.sum_append]
    rw [List.map_cons, List.sum_cons, hsplit]
    congr 1
    have hcong : ∀ v' ∈ vs, l.filter (fun a => decide (key a = v')) =
        (l.filter (fun a => !decide (key a = v))).filter (fun a => decide (key a = v')) := by
      intro v' hv'
      rw [List.filter_filter]
      apply List.filter_congr
      intro a _
      by_cases hk : key a = v'
      · have hne : v' ≠ v := by
          intro hcontra
          exact hvvs (hcontra ▸ hv')
        simp [hk, hne]
      · simp [hk]
    have hmap : vs.map (fun v' => ((l.filter (fun a => decide (key a = v'))).map F).sum)
        = vs.map (fun v' => (((l.filter (fun a => !decide (key a = v))).filter
            (fun a => decide (key a = v'))).map F).sum) := by
      apply List.map_congr_left
      intro v' hv'
      rw [hcong v' hv']
    rw [hmap]
    apply ih
    · exact (List.nodup_cons.mp hnd).2
    · intro a ha
      have hmem := List.mem_filter.mp ha
      have hka : key a ∈ v :: vs := hcov a hmem.1
      have hkv : key a ≠ v := by
        intro hcontra
        have := hmem.2
        simp [hcontra] at this
      rcases List.mem_cons.mp hka with hc | hc
      · exact absurd hc hkv
      · exact hc

end SageBench

namespace SageBench

theorem tieAveragedDCG_eq_spec (y_true y_score : List ℚ)
    (hlen : y_true.length = y_score.length) :
    tieAveragedDCG y_true y_score = specTieAvgDCG (y_true.zip y_score) := by
  simp only [tieAveragedDCG, specTieAvgDCG]
  have hsnd : (y_true.zip y_score).map Prod.snd = y_score :=
    List.map_snd_zip _ _ (le_of_eq hlen.symm)
  have hcnt : ∀ v : ℚ, y_score.countP (fun w => decide (w = v)) =
      (y_true.zip y_score).countP (fun q => decide (q.2 = v)) := by
    intro v
    have h1 := List.countP_map (fun w => decide (w = v)) Prod.snd (y_true.zip y_score)
    rw [hsnd] at h1
    exact h1
  have habove : ∀ v : ℚ, y_score.countP (fun w => decide (v < w)) =
      (y_true.zip y_score).countP (fun q => decide (v < q.2)) := by
    intro v
    have h1 := List.countP_map (fun w => decide (v < w)) Prod.snd (y_true.zip y_score)
    rw [hsnd] at h1
    exact h1
  rw [← sum_partition_by (fun p : ℚ × ℚ => p.2)
      (fun p => (p.1 : ℝ) * (((List.range ((y_true.zip y_score).countP
          (fun q => decide (q.2 = p.2)))).map
        (fun i => disc ((y_true.zip y_score).countP (fun q => decide (p.2 < q.2)) + i))).sum /
        (((y_true.zip y_score).countP (fun q => decide (q.2 = p.2)) : ℕ) : ℝ)))
      y_score.dedup (y_true.zip y_score) y_score.nodup_dedup
      (fun p hp => List.mem_dedup.mpr (List.of_mem_zip hp).2)]
  apply congrArg
  apply List.map_congr_left
  intro v hv
  have hterm : ∀ p ∈ (y_true.zip y_score).filter (fun q => decide (q.2 = v)),
      (p.1 : ℝ) * (((List.range ((y_true.zip y_score).countP
          (fun q => decide (q.2 = p.2)))).map
        (fun i => disc ((y_true.zip y_score).countP (fun q => decide (p.2 < q.2)) + i))).sum /
        (((y_true.zip y_score).countP (fun q => decide (q.2 = p.2)) : ℕ) : ℝ))
      = (p.1 : ℝ) * (((List.range (y_score.countP (fun w => decide (w = v)))).map
        (fun i => disc (y_score.countP (fun w => decide (v < w)) + i))).sum /
        ((y_score.countP (fun w => decide (w = v)) : ℕ) : ℝ)) := by
    intro p hp
    have hpv : p.2 = v := of_decide_eq_true (List.mem_filter.mp hp).2
    rw [hpv, ← hcnt v, ← habove v]
  rw [List.map_congr_left hterm, List.sum_map_mul_right]
  have hcast : (((((y_true.zip y_score).filter (fun p => decide (p.2 = v))).map
      (fun p => p.1)).sum : ℚ) : ℝ)
      = (((y_true.zip y_score).filter (fun p => decide (p.2 = v))).map
        (fun p => ((p.1 : ℚ) : ℝ))).sum := by
    rw [Rat.cast_list_sum, List.map_map]
    rfl
  rw [hcast]
  ring

end SageBench

namespace SageBench

theorem specTieAvgDCG_perm {l l' : List (ℚ × ℚ)} (h : l.Perm l') :
    specTieAvgDCG l = specTieAvgDCG l' := by
  simp only [specTieAvgDCG]
  have hF : ∀ p : ℚ × ℚ,
      (p.1 : ℝ) * (((List.range (l.countP (fun q => decide (q.2 = p.2)))).map
        (fun i => disc (l.countP (fun q => decide (p.2 < q.2)) + i))).sum /
        ((l.countP (fun q => decide (q.2 = p.2)) : ℕ) : ℝ))
      = (p.1 : ℝ) * (((List.range (l'.countP (fun q => decide (q.2 = p.2)))).map
        (fun i => disc (l'.countP (fun q => decide (p.2 < q.2)) + i))).sum /
        ((l'.countP (fun q => decide (q.2 = p.2)) : ℕ) : ℝ)) := by
    intro p
    rw [h.countP_eq, h.countP_eq]
  calc (l.map (fun p => (p.1 : ℝ) * (((List.range (l.countP (fun q => decide (q.2 = p.2)))).map
          (fun i => disc (l.countP (fun q => decide (p.2 < q.2)) + i))).sum /
          ((l.countP (fun q => decide (q.2 = p.2)) : ℕ) : ℝ)))).sum
      = (l.map (fun p => (p.1 : ℝ) * (((List.range (l'.countP (fun q => decide (q.2 = p.2)))).map
          (fun i => disc (l'.countP (fun q => decide (p.2 < q.2)) + i))).sum /
          ((l'.countP (fun q => decide (q.2 = p.2)) : ℕ) : ℝ)))).sum := by
        rw [List.map_congr_left (fun p _ => hF p)]
    _ = (l'.map (fun p => (p.1 : ℝ) * (((List.range (l'.countP (fun q => decide (q.2 = p.2)))).map
          (fun i => disc (l'.countP (fun q => decide (p.2 < q.2)) + i))).sum /
          ((l'.countP (fun q => decide (q.2 = p.2)) : ℕ) : ℝ)))).sum := (h.map _).sum_eq

/-- C6 (amended): for a result frame with at least two rows whose relevance
column is in the schema, `compute_ndcg` does not give ties the benefit of the
original order: its value is the tie-averaged NDCG of the (relevance, score)
pairs (scikit-learn `ndcg_score` with its default tie handling), which depends
only on the multiset of pairs — DCG gives every item the mean discount of the
rank positions occupied by its tie group, IDCG is the positional DCG of the
labels sorted descending, the quotient is 0 when IDCG is 0. -/
theorem C6_compute_ndcg_tie_averaged (f : Frame) (relevance_col sortby : String)
    (h2 : 2 ≤ f.rows.length) (hrel : relevance_col ∈ f.cols) :
    compute_ndcg f relevance_col sortby =
      specTieAvgNDCG (f.rows.map (fun r =>
        (valToRat (cell r relevance_col), valToRat (cell r sortby)))) := by
  have hperm : (sortRowsDesc f.rows sortby).Perm f.rows := List.mergeSort_perm _ _
  simp only [compute_ndcg]
  rw [if_neg (by omega), if_pos hrel]
  simp only [ndcg_score, specTieAvgNDCG]
  have hyt : ((f.rows.map (fun r => (valToRat (cell r relevance_col), valToRat (cell r sortby)))).map
      (fun p => p.1)) = f.rows.map (fun r => valToRat (cell r relevance_col)) := by
    rw [List.map_map]
    rfl
  have hidcg : sortDescQ ((sortRowsDesc f.rows sortby).map
        (fun r => valToRat (cell r relevance_col)))
      = sortDescQ ((f.rows.map (fun r =>
          (valToRat (cell r relevance_col), valToRat (cell r sortby)))).map (fun p => p.1)) := by
    rw [hyt]
    exact sortDescQ_congr_perm (hperm.map _)
  have htie : tieAveragedDCG
        ((sortRowsDesc f.rows sortby).map (fun r => valToRat (cell r relevance_col)))
        ((sortRowsDesc f.rows sortby).map (fun r => valToRat (cell r sortby)))
      = specTieAvgDCG (f.rows.map (fun r =>
          (valToRat (cell r relevance_col), valToRat (cell r sortby)))) := by
    rw [tieAveragedDCG_eq_spec _ _ (by simp), List.zip_map']
    exact specTieAvgDCG_perm (hperm.map _)
  rw [hidcg, htie]

/-- Concrete two-row frame whose two results carry tied scores. -/
def wTieFrame : Frame :=
  ⟨["rel", "score"],
   [[("rel", Value.vint 1), ("score", Value.vnum 5)],
    [("rel", Value.vint 0), ("score", Value.vnum 5)]]⟩

/-- Closed witness for the amended C6 at the tied-score frame. -/
theorem C6_compute_ndcg_tie_averaged_witness :
    (2 ≤ wTieFrame.rows.length) ∧ ("rel" ∈ wTieFrame.cols) ∧
    compute_ndcg wTieFrame "rel" "score" =
      specTieAvgNDCG (wTieFrame.rows.map (fun r =>
        (valToRat (cell r "rel"), valToRat (cell r "score")))) :=
  ⟨by decide, by decide, C6_compute_ndcg_tie_averaged wTieFrame "rel" "score" (by decide) (by decide)⟩

end SageBench

namespace SageBench

/-- C6 counterexample: on two results with tied scores and relevance labels
[1, 0], the stable-sort NDCG demanded by the spec is 1, but the code computes
the tie-averaged value (1 + 1/log2 3)/2 < 1, so `compute_ndcg` differs from
the spec formula at this input. -/
theorem C6_stable_order_counterexample :
    ¬ (compute_ndcg wTieFrame "rel" "score" =
        specStableNDCG (wTieFrame.rows.map (fun r =>
          (valToRat (cell r "rel"), valToRat (cell r "score"))))) := by
  have hdisc0 : disc 0 = 1 := by
    have h2 : ((0:ℕ):ℝ) + 2 = 2 := by norm_num
    simp only [disc, h2, Real.logb_self_eq_one (show (1:ℝ) < 2 by norm_num), one_div_one]
  have hlog3 : (1:ℝ) < Real.logb 2 3 := by
    have h := Real.logb_lt_logb (b := 2) (by norm_num) (show (0:ℝ) < 2 by norm_num)
      (show (2:ℝ) < 3 by norm_num)
    rw [Real.logb_self_eq_one (by norm_num)] at h
    exact h
  have hdisc1 : disc 1 < 1 := by
    have h1 : ((1:ℕ):ℝ) + 2 = 3 := by norm_num
    simp only [disc, h1]
    rw [div_lt_one (lt_trans zero_lt_one hlog3)]
    exact hlog3
  have hsd10 : sortDescQ [(1:ℚ), 0] = [1, 0] := List.mergeSort_of_sorted (by decide)
  have hdcg10 : dcgAt [(1:ℚ), 0] = 1 := by
    simp only [dcgAt]
    norm_num [List.range_succ, hdisc0]
  have hsortrows : sortRowsDesc wTieFrame.rows "score" = wTieFrame.rows :=
    List.mergeSort_of_sorted (by decide)
  have hmaprel : wTieFrame.rows.map (fun r => valToRat (cell r "rel")) = [1, 0] := by decide
  have hmapsc : wTieFrame.rows.map (fun r => valToRat (cell r "score")) = [5, 5] := by decide
  have htieval : tieAveragedDCG [(1:ℚ), 0] [(5:ℚ), 5] = (disc 0 + disc 1) / 2 := by
    simp only [tieAveragedDCG]
    have hzip : (([(1:ℚ), 0]).zip ([(5:ℚ), 5])) = [(1, 5), (0, 5)] := by decide
    rw [hzip]
    have hd : ([(5:ℚ), 5]).dedup = [5] := by decide
    rw [hd]
    simp only [List.map_cons, List.map_nil, List.sum_cons, List.sum_nil, add_zero]
    have hcnt : ([(5:ℚ), 5]).countP (fun w => decide (w = 5)) = 2 := by decide
    have hab : ([(5:ℚ), 5]).countP (fun w => decide (5 < w)) = 0 := by decide
    have hrs : ((([((1:ℚ), (5:ℚ)), (0, 5)]).filter (fun p => decide (p.2 = 5))).map
        (fun p => p.1)).sum = 1 := by
      have h1 : (([((1:ℚ), (5:ℚ)), (0, 5)]).filter (fun p => decide (p.2 = 5))).map
          (fun p => p.1) = [1, 0] := by decide
      rw [h1]
      simp [List.sum_cons, List.sum_nil]
    rw [hcnt, hab, hrs]
    norm_num [List.range_succ]
    ring
  have hcompute : compute_ndcg wTieFrame "rel" "score" = (disc 0 + disc 1) / 2 := by
    simp only [compute_ndcg]
    rw [if_neg (by decide), if_pos (by decide), hsortrows, hmaprel, hmapsc]
    simp only [ndcg_score]
    rw [hsd10, hdcg10, if_neg one_ne_zero, htieval, div_one]
  have hstable : specStableNDCG (wTieFrame.rows.map (fun r =>
      (valToRat (cell r "rel"), valToRat (cell r "score")))) = 1 := by
    have hp : wTieFrame.rows.map (fun r => (valToRat (cell r "rel"), valToRat (cell r "score")))
        = [((1:ℚ), (5:ℚ)), (0, 5)] := by decide
    rw [hp]
    simp only [specStableNDCG]
    rw [if_neg (by norm_num)]
    have hr : ([((1:ℚ), (5:ℚ)), ((0:ℚ), (5:ℚ))]).mergeSort (fun a b => decide (b.2 ≤ a.2))
        = [(1, 5), (0, 5)] := List.mergeSort_of_sorted (by decide)
    rw [hr]
    have hm1 : ([((1:ℚ), (5:ℚ)), ((0:ℚ), (5:ℚ))]).map (fun p => p.1) = [1, 0] := by decide
    simp only [hm1]
    rw [hsd10, hdcg10, if_neg one_ne_zero, div_one]
  rw [hcompute, hstable]
  intro heq
  rw [hdisc0] at heq
  have hd1 : disc 1 = 1 := by linarith
  linarith

end SageBench

namespace SageBench

theorem find?_eq_head_filter {α : Type} (p : α → Bool) (l : List α) :
    l.find? p = (l.filter p).head? := by
  induction l with
  | nil => rfl
  | cons a t ih =>
    by_cases h : p a
    · rw [List.find?_cons_of_pos _ h, List.filter_cons_of_pos h]
      rfl
    · rw [List.find?_cons_of_neg _ h, List.filter_cons_of_neg h, ih]

/-- C7 (amended): in the non-empty branch, the secondary NDCG is computed with
the first column of `score_columns` that is present in the result schema and
differs from the first CONFIGURED column (`score_columns[0]`) — not from the
column the primary NDCG actually used — and the `secondary_NDCG` field is
emitted exactly when that computed value is strictly positive: both the
absence of such a column and a legitimately computed zero omit the field. -/
theorem C7_secondary_emission (cfg : EvalConfig)
    (search : String → Except String (List Row)) (query_row : Row) (dataset : Frame)
    (h : (annotated_results cfg search query_row).rows ≠ []) :
    (evaluate_query cfg search query_row dataset).2.secondary_NDCG =
      (match (cfg.score_columns.filter (fun c =>
          decide (c ∈ (annotated_results cfg search query_row).cols) &&
          decide (some c ≠ cfg.score_columns.head?))).head? with
      | some c =>
        if 0 < compute_ndcg (annotated_results cfg search query_row) cfg.relevance_col c then
          some (compute_ndcg (annotated_results cfg search query_row) cfg.relevance_col c)
        else none
      | none => none) := by
  have hemp : ¬ ((annotated_results cfg search query_row).rows.isEmpty = true) := by
    simp [List.isEmpty_iff, h]
  simp only [evaluate_query, hemp, Bool.false_eq_true, if_false]
  rw [← find?_eq_head_filter]
  cases hf : cfg.score_columns.find? (fun c =>
      decide (c ∈ (annotated_results cfg search query_row).cols) &&
      decide (some c ≠ cfg.score_columns.head?)) with
  | none => simp [hf]
  | some c => simp [hf]

/-- Configuration with two score columns, for the secondary-NDCG claims. -/
def wCfg2 : EvalConfig := ⟨"q", "id", "rel", [], ["s1", "s2"]⟩

/-- Searcher returning two records carrying both score columns and only
irrelevant results. -/
def wSearchTwo : String → Except String (List Row) :=
  fun _ => .ok
    [[("id", Value.vint 1), ("rel", Value.vint 0), ("s1", Value.vnum 3), ("s2", Value.vnum 7)],
     [("id", Value.vint 1), ("rel", Value.vint 0), ("s1", Value.vnum 2), ("s2", Value.vnum 5)]]

/-- Query row used with `wCfg2`. -/
def wQRow : Row := [("q", Value.vstr "dog"), ("id", Value.vint 1)]

/-- One-row dataset used with `wCfg2`. -/
def wDs : Frame := ⟨["q", "id", "rel"], [wQRow]⟩

/-- Closed witness for the amended C7 at the two-column searcher. -/
theorem C7_secondary_emission_witness :
    ((annotated_results wCfg2 wSearchTwo wQRow).rows ≠ []) ∧
    (evaluate_query wCfg2 wSearchTwo wQRow wDs).2.secondary_NDCG =
      (match (wCfg2.score_columns.filter (fun c =>
          decide (c ∈ (annotated_results wCfg2 wSearchTwo wQRow).cols) &&
          decide (some c ≠ wCfg2.score_columns.head?))).head? with
      | some c =>
        if 0 < compute_ndcg (annotated_results wCfg2 wSearchTwo wQRow) wCfg2.relevance_col c then
          some (compute_ndcg (annotated_results wCfg2 wSearchTwo wQRow) wCfg2.relevance_col c)
        else none
      | none => none) :=
  ⟨by decide, C7_secondary_emission wCfg2 wSearchTwo wQRow wDs (by decide)⟩

/-- C7 counterexample: with both configured score columns present, the primary
NDCG uses "s1" and a second present column "s2" exists, yet the computed
secondary NDCG is 0 (no relevant result), so the code omits `secondary_NDCG`
— contradicting the claim that the field is omitted exactly when no second
column is available and that a legitimately computed zero is still emitted. -/
theorem C7_zero_secondary_omitted :
    (wCfg2.score_columns.find? (fun c =>
        decide (c ∈ (annotated_results wCfg2 wSearchTwo wQRow).cols)) = some "s1") ∧
    ("s2" ∈ wCfg2.score_columns ∧
      "s2" ∈ (annotated_results wCfg2 wSearchTwo wQRow).cols ∧ "s2" ≠ "s1") ∧
    (evaluate_query wCfg2 wSearchTwo wQRow wDs).2.secondary_NDCG = none := by
  refine ⟨by decide, by decide, ?_⟩
  have hemp : ¬ ((annotated_results wCfg2 wSearchTwo wQRow).rows.isEmpty = true) := by decide
  have hzero : compute_ndcg (annotated_results wCfg2 wSearchTwo wQRow) "rel" "s2" = 0 := by
    simp only [compute_ndcg]
    rw [if_neg (by decide), if_pos (by decide)]
    have hs : sortRowsDesc (annotated_results wCfg2 wSearchTwo wQRow).rows "s2"
        = (annotated_results wCfg2 wSearchTwo wQRow).rows :=
      List.mergeSort_of_sorted (by decide)
    have hyt : (sortRowsDesc (annotated_results wCfg2 wSearchTwo wQRow).rows "s2").map
        (fun r => valToRat (cell r "rel")) = [0, 0] := by
      rw [hs]
      decide
    rw [hyt]
    simp only [ndcg_score]
    have hsd : sortDescQ [(0:ℚ), 0] = [0, 0] := List.mergeSort_of_sorted (by decide)
    have hd0 : dcgAt [(0:ℚ), 0] = 0 := by
      simp [dcgAt, List.range_succ]
    rw [hsd, hd0, if_pos rfl]
  have hf2 : wCfg2.score_columns.find? (fun c =>
      decide (c ∈ (annotated_results wCfg2 wSearchTwo wQRow).cols) &&
      decide (some c ≠ wCfg2.score_columns.head?)) = some "s2" := by decide
  simp only [evaluate_query, hemp, Bool.false_eq_true, if_false, hf2]
  rw [show wCfg2.relevance_col = "rel" from rfl] at *
  simp [hzero]

end SageBench
